import Mathlib

/-!
Shallow embedding of the core reconciliation logic of
terraform-provider-pagerduty: the schedule data source
(data_source_pagerduty_schedule.go), the add-on resource
(resource_pagerduty_addon.go) and the service-integration resource
(resource_pagerduty_service_integration.go).

Remote calls are modelled by passing in the sequence of outcomes the
remote client would return, one per attempt; Terraform ResourceData is
modelled as a typed record per resource. Helper functions that live in
the repository outside the three embedded files (isErrCode, genError,
handleNotFoundError) and the SDK retry wrapper (resource.Retry) are
modelled from the specification, as marked on each definition.
-/

/-- A classified remote error: an optional HTTP status code (absent for
locally generated errors such as the schedule lookup failure) and a
message. -/
structure RemoteError where
  httpStatus : Option Nat
  message : String
deriving Repr, DecidableEq

/-- Modelled from the spec: isErrCode (declared elsewhere in the
repository) checks whether the classified error carries the given HTTP
status code; the Error Classifier maps errors by HTTP status. -/
def isErrCode (err : RemoteError) (code : Nat) : Bool :=
  err.httpStatus == some code

/-- Result of one attempt of a retried operation body: success (nil),
a RetryableError preceded by a sleep of the given number of seconds, or
a NonRetryableError. The resulting local state is carried along. -/
inductive StepResult (σ : Type) where
  | ok (d : σ)
  | retryable (sleep : Nat) (err : RemoteError) (d : σ)
  | nonRetryable (err : RemoteError) (d : σ)
deriving Repr, DecidableEq

/-- Outcome of a full operation: the final local state, the error
returned to the caller (none on success), and the number of remote
calls (attempts) actually issued. -/
structure Outcome (σ : Type) where
  state : σ
  err : Option RemoteError
  calls : Nat
deriving Repr, DecidableEq

/-- Modelled from the spec: the Retry Controller (the SDK's
resource.Retry, not part of the embedded sources). The trace lists the
remote outcome of each attempt that fits inside the bounded wall-clock
window. The loop stops immediately on success or a non-retryable
error; on a retryable error it retries with the next attempt, and when
the window is exhausted (the trace ends) it returns the last failure. -/
def retryLoop {σ ρ : Type} (step : σ → ρ → StepResult σ) : σ → List ρ → Outcome σ
  | d, [] => ⟨d, none, 0⟩
  | d, r :: rest =>
    match step d r with
    | .ok d' => ⟨d', none, 1⟩
    | .nonRetryable e d' => ⟨d', some e, 1⟩
    | .retryable _ e d' =>
      if rest.isEmpty then ⟨d', some e, 1⟩
      else
        let o := retryLoop step d' rest
        ⟨o.state, o.err, o.calls + 1⟩

/-- Local states that carry an identity settable via SetId. -/
class HasId (σ : Type) where
  setId : σ → String → σ

/-- Modelled from the spec: genError (declared elsewhere in the
repository) is the hard-fail callback used immediately after Create: it
always returns the error. -/
def genError {σ : Type} (err : RemoteError) (d : σ) : σ × Option RemoteError :=
  (d, some err)

/-- Modelled from the spec: handleNotFoundError (declared elsewhere in
the repository) is the not-found callback used by plain Read: if the
error is classified NotFound (HTTP 404) it clears the identity and
returns no error; otherwise it returns the error. -/
def handleNotFoundError {σ : Type} [HasId σ] (err : RemoteError) (d : σ) :
    σ × Option RemoteError :=
  if err.httpStatus == some 404 then (HasId.setId d "", none)
  else (d, some err)

/-! ## Schedule data source (data_source_pagerduty_schedule.go) -/

/-- A schedule as returned by the remote listing call. -/
structure Schedule where
  id : String
  name : String
deriving Repr, DecidableEq

/-- Local state of the schedule data source: the resource id and the
name field. -/
structure ScheduleData where
  id : String
  name : String
deriving Repr, DecidableEq

/-- One attempt of the body of dataSourcePagerDutyScheduleRead: on a
listing error, sleep 30s and retry when the error is HTTP 429,
otherwise fail non-retryably; on success scan the listing for the first
schedule whose name equals the search name exactly, set id and name on
a match, and fail non-retryably naming the searched value otherwise. -/
def scheduleStep (searchName : String) (d : ScheduleData)
    (resp : Except RemoteError (List Schedule)) : StepResult ScheduleData :=
  match resp with
  | .error err =>
    if isErrCode err 429 then .retryable 30 err d
    else .nonRetryable err d
  | .ok schedules =>
    match schedules.find? (fun s => s.name == searchName) with
    | some found => .ok { d with id := found.id, name := found.name }
    | none =>
      .nonRetryable ⟨none, "Unable to locate any schedule with the name: " ++ searchName⟩ d

/-- dataSourcePagerDutyScheduleRead: retries the listing-and-scan body
over the bounded window; the search name is read from local state once,
before the loop. -/
def dataSourcePagerDutyScheduleRead (d : ScheduleData)
    (trace : List (Except RemoteError (List Schedule))) : Outcome ScheduleData :=
  retryLoop (scheduleStep d.name) d trace

/-! ## Add-on resource (resource_pagerduty_addon.go) -/

/-- A PagerDuty add-on as sent to / returned by the remote client. -/
structure Addon where
  id : String
  name : String
  src : String
  type : String
deriving Repr, DecidableEq

/-- Local state of the add-on resource. -/
structure AddonData where
  id : String
  name : String
  src : String
deriving Repr, DecidableEq

instance : HasId AddonData := ⟨fun d i => { d with id := i }⟩

/-- buildAddonStruct: builds the remote-shaped add-on from local state
with the fixed type full_page_addon. -/
def buildAddonStruct (d : AddonData) : Addon :=
  { id := "", name := d.name, src := d.src, type := "full_page_addon" }

/-- One attempt of the body of fetchPagerDutyAddon: on a Get error,
invoke the error callback; if it returns an error, sleep 2s and retry
with that error, otherwise succeed; on a successful Get write name and
src into local state. -/
def fetchAddonStep (errCallback : RemoteError → AddonData → AddonData × Option RemoteError)
    (d : AddonData) (resp : Except RemoteError Addon) : StepResult AddonData :=
  match resp with
  | .error err =>
    match errCallback err d with
    | (d', some e) => .retryable 2 e d'
    | (d', none) => .ok d'
  | .ok addon => .ok { d with name := addon.name, src := addon.src }

/-- fetchPagerDutyAddon: the Get-and-write body retried over the
bounded window with the supplied error callback. -/
def fetchPagerDutyAddon
    (errCallback : RemoteError → AddonData → AddonData × Option RemoteError)
    (d : AddonData) (trace : List (Except RemoteError Addon)) : Outcome AddonData :=
  retryLoop (fetchAddonStep errCallback) d trace

/-- resourcePagerDutyAddonCreate: installs the add-on (one direct
call); on error returns it; on success sets the returned id and fetches
with the hard-fail callback genError. -/
def resourcePagerDutyAddonCreate (d : AddonData)
    (createResp : Except RemoteError Addon)
    (fetchTrace : List (Except RemoteError Addon)) : Outcome AddonData :=
  match createResp with
  | .error err => ⟨d, some err, 1⟩
  | .ok addon =>
    let o := fetchPagerDutyAddon genError { d with id := addon.id } fetchTrace
    ⟨o.state, o.err, o.calls + 1⟩

/-- resourcePagerDutyAddonRead: fetch with the not-found callback. -/
def resourcePagerDutyAddonRead (d : AddonData)
    (trace : List (Except RemoteError Addon)) : Outcome AddonData :=
  fetchPagerDutyAddon handleNotFoundError d trace

/-- resourcePagerDutyAddonUpdate: builds the add-on struct and issues a
single non-retried update; returns any error verbatim and never writes
local state. -/
def resourcePagerDutyAddonUpdate (d : AddonData)
    (updateResp : Except RemoteError Addon) : Outcome AddonData :=
  let _addon := buildAddonStruct d
  match updateResp with
  | .error err => ⟨d, some err, 1⟩
  | .ok _ => ⟨d, none, 1⟩

/-- resourcePagerDutyAddonDelete: issues a single non-retried delete;
on error returns it; on success clears the id. -/
def resourcePagerDutyAddonDelete (d : AddonData)
    (deleteResp : Option RemoteError) : Outcome AddonData :=
  match deleteResp with
  | some err => ⟨d, some err, 1⟩
  | none => ⟨{ d with id := "" }, none, 1⟩

/-! ## Service-integration resource (resource_pagerduty_service_integration.go) -/

/-- A service integration as sent to / returned by the remote client.
The service and vendor references are nil-able pointers, flattened here
to the referenced id. -/
structure Integration where
  id : String
  name : String
  type : String
  service : Option String
  vendor : Option String
  integrationKey : String
  integrationEmail : String
  htmlUrl : String
deriving Repr, DecidableEq

/-- Local state of the service-integration resource. A field is absent
for GetOk exactly when it holds the empty string. -/
structure IntegrationData where
  id : String
  name : String
  service : String
  type : String
  vendor : String
  integrationKey : String
  integrationEmail : String
  htmlUrl : String
deriving Repr, DecidableEq

instance : HasId IntegrationData := ⟨fun d i => { d with id := i }⟩

def errEmailIntegrationMustHaveEmail : String :=
  "integration_email attribute must be set for an integration type generic_email_inbound_integration"

/-- buildServiceIntegrationStruct: builds the remote-shaped integration
from local state (GetOk-guarded optional fields), then validates that a
generic_email_inbound_integration has an integration email, failing
with the validation error otherwise. -/
def buildServiceIntegrationStruct (d : IntegrationData) : Except RemoteError Integration :=
  let si : Integration :=
    { id := "", name := d.name, type := "service_integration",
      service := some d.service, vendor := none,
      integrationKey := "", integrationEmail := "", htmlUrl := "" }
  let si := if d.integrationKey ≠ "" then { si with integrationKey := d.integrationKey } else si
  let si := if d.integrationEmail ≠ "" then { si with integrationEmail := d.integrationEmail } else si
  let si := if d.type ≠ "" then { si with type := d.type } else si
  let si := if d.vendor ≠ "" then { si with vendor := some d.vendor } else si
  if si.type == "generic_email_inbound_integration" && si.integrationEmail == "" then
    .error ⟨none, errEmailIntegrationMustHaveEmail⟩
  else
    .ok si

/-- One attempt of the body of fetchPagerDutyServiceIntegration: on a
Get error, invoke the error callback (sleep 2s and retry when it
returns an error, succeed otherwise); on success write name and type
unconditionally, and service, vendor, integration_key,
integration_email, html_url only when present / non-empty. -/
def fetchServiceIntegrationStep
    (errCallback : RemoteError → IntegrationData → IntegrationData × Option RemoteError)
    (d : IntegrationData) (resp : Except RemoteError Integration) :
    StepResult IntegrationData :=
  match resp with
  | .error err =>
    match errCallback err d with
    | (d', some e) => .retryable 2 e d'
    | (d', none) => .ok d'
  | .ok si =>
    let d := { d with name := si.name, type := si.type }
    let d := match si.service with
      | some sid => { d with service := sid }
      | none => d
    let d := match si.vendor with
      | some vid => { d with vendor := vid }
      | none => d
    let d := if si.integrationKey ≠ "" then { d with integrationKey := si.integrationKey } else d
    let d := if si.integrationEmail ≠ "" then { d with integrationEmail := si.integrationEmail } else d
    let d := if si.htmlUrl ≠ "" then { d with htmlUrl := si.htmlUrl } else d
    .ok d

/-- fetchPagerDutyServiceIntegration: the Get-and-write body retried
over the bounded window with the supplied error callback. -/
def fetchPagerDutyServiceIntegration
    (errCallback : RemoteError → IntegrationData → IntegrationData × Option RemoteError)
    (d : IntegrationData) (trace : List (Except RemoteError Integration)) :
    Outcome IntegrationData :=
  retryLoop (fetchServiceIntegrationStep errCallback) d trace

/-- One attempt of the create retry body of
resourcePagerDutyServiceIntegrationCreate: on error, sleep 2s and retry
when the error is HTTP 400, otherwise fail non-retryably; on success
set the returned id if an integration was returned. -/
def serviceIntegrationCreateStep (d : IntegrationData)
    (resp : Except RemoteError (Option Integration)) : StepResult IntegrationData :=
  match resp with
  | .error err =>
    if isErrCode err 400 then .retryable 2 err d else .nonRetryable err d
  | .ok none => .ok d
  | .ok (some si) => .ok { d with id := si.id }

/-- resourcePagerDutyServiceIntegrationCreate: build (failing fast with
no network call on a validation error), create with the short retry
window, then on success fetch with the hard-fail callback genError. -/
def resourcePagerDutyServiceIntegrationCreate (d : IntegrationData)
    (createTrace : List (Except RemoteError (Option Integration)))
    (fetchTrace : List (Except RemoteError Integration)) : Outcome IntegrationData :=
  match buildServiceIntegrationStruct d with
  | .error e => ⟨d, some e, 0⟩
  | .ok _si =>
    let o1 := retryLoop serviceIntegrationCreateStep d createTrace
    match o1.err with
    | some e => ⟨o1.state, some e, o1.calls⟩
    | none =>
      let o2 := fetchPagerDutyServiceIntegration genError o1.state fetchTrace
      ⟨o2.state, o2.err, o1.calls + o2.calls⟩

/-- resourcePagerDutyServiceIntegrationRead: fetch with the not-found
callback. -/
def resourcePagerDutyServiceIntegrationRead (d : IntegrationData)
    (trace : List (Except RemoteError Integration)) : Outcome IntegrationData :=
  fetchPagerDutyServiceIntegration handleNotFoundError d trace

/-- resourcePagerDutyServiceIntegrationUpdate: builds the integration
struct (failing fast with no network call on a validation error) and
issues a single non-retried update; returns any error verbatim and
never writes local state. -/
def resourcePagerDutyServiceIntegrationUpdate (d : IntegrationData)
    (updateResp : Except RemoteError Integration) : Outcome IntegrationData :=
  match buildServiceIntegrationStruct d with
  | .error e => ⟨d, some e, 0⟩
  | .ok _si =>
    match updateResp with
    | .error err => ⟨d, some err, 1⟩
    | .ok _ => ⟨d, none, 1⟩

/-- resourcePagerDutyServiceIntegrationDelete: issues a single
non-retried delete; on error returns it; on success clears the id. -/
def resourcePagerDutyServiceIntegrationDelete (d : IntegrationData)
    (deleteResp : Option RemoteError) : Outcome IntegrationData :=
  match deleteResp with
  | some err => ⟨d, some err, 1⟩
  | none => ⟨{ d with id := "" }, none, 1⟩

/-- The splitting of a character list at every occurrence of a
separator character, with the semantics of Go strings.Split: the empty
input yields one empty component, adjacent separators yield empty
components. -/
def splitOnChar (sep : Char) : List Char → List (List Char)
  | [] => [[]]
  | c :: rest =>
    let r := splitOnChar sep rest
    if c == sep then [] :: r
    else
      match r with
      | [] => [[c]]
      | h :: t => (c :: h) :: t

/-- strings.Split of a string on the dot delimiter. -/
def stringSplitDot (s : String) : List String :=
  (splitOnChar '.' s.data).map (fun l => String.mk l)

def serviceIntegrationImportErr : String :=
  "Error importing pagerduty_service_integration. Expecting an importation ID formed as \x27<service_id>.<integration_id>\x27"

/-- resourcePagerDutyServiceIntegrationImport: splits the raw id on the
dot delimiter; unless exactly two components result, fails with the
format validation error before any network call; otherwise issues one
existence check and on success stores integration id and service id. -/
def resourcePagerDutyServiceIntegrationImport (d : IntegrationData)
    (getResp : Except RemoteError Integration) : Outcome IntegrationData :=
  match stringSplitDot d.id with
  | [sid, iid] =>
    match getResp with
    | .error err => ⟨d, some err, 1⟩
    | .ok _ => ⟨{ d with id := iid, service := sid }, none, 1⟩
  | _ => ⟨d, some ⟨none, serviceIntegrationImportErr⟩, 0⟩

/-! ## Claims -/

/-- C1 counterexample: an attempt of the add-on fetch that fails with
HTTP 429 sleeps 2 seconds before the retry, not the mandated 30. -/
theorem C1_counterexample :
    fetchAddonStep genError ⟨"ID1", "A", "S"⟩ (.error ⟨some 429, "rate limited"⟩)
      = .retryable 2 ⟨some 429, "rate limited"⟩ ⟨"ID1", "A", "S"⟩
    ∧ (2 : Nat) ≠ 30 := by
  exact ⟨rfl, by decide⟩

/-- C1 amended: only the schedule search waits the mandated 30-second
delay on an HTTP 429 failure; the add-on fetch and the
service-integration fetch wait a fixed 2-second delay before every
retryable attempt — including on 429 — whenever their error callback
returns an error. -/
theorem C1_amended (err : RemoteError) (h : isErrCode err 429 = true)
    (n : String) (ds : ScheduleData) (da da' : AddonData) (di di' : IntegrationData)
    (ea ei : RemoteError)
    (cba : RemoteError → AddonData → AddonData × Option RemoteError)
    (cbi : RemoteError → IntegrationData → IntegrationData × Option RemoteError)
    (ha : cba err da = (da', some ea)) (hi : cbi err di = (di', some ei)) :
    scheduleStep n ds (.error err) = .retryable 30 err ds
    ∧ fetchAddonStep cba da (.error err) = .retryable 2 ea da'
    ∧ fetchServiceIntegrationStep cbi di (.error err) = .retryable 2 ei di' := by
  refine ⟨?_, ?_, ?_⟩
  · simp [scheduleStep, h]
  · simp [fetchAddonStep, ha]
  · simp [fetchServiceIntegrationStep, hi]

/-- C1 amended, witness: a 429 error, with the hard-fail callback. -/
theorem C1_amended_witness :
    scheduleStep "N" ⟨"", "N"⟩ (.error ⟨some 429, "rl"⟩)
      = .retryable 30 ⟨some 429, "rl"⟩ ⟨"", "N"⟩
    ∧ fetchAddonStep genError ⟨"I", "A", "S"⟩ (.error ⟨some 429, "rl"⟩)
      = .retryable 2 ⟨some 429, "rl"⟩ ⟨"I", "A", "S"⟩
    ∧ fetchServiceIntegrationStep genError ⟨"I", "N", "S", "T", "V", "K", "E", "U"⟩
        (.error ⟨some 429, "rl"⟩)
      = .retryable 2 ⟨some 429, "rl"⟩ ⟨"I", "N", "S", "T", "V", "K", "E", "U"⟩ :=
  C1_amended ⟨some 429, "rl"⟩ (by decide) "N" ⟨"", "N"⟩ ⟨"I", "A", "S"⟩ ⟨"I", "A", "S"⟩
    ⟨"I", "N", "S", "T", "V", "K", "E", "U"⟩ ⟨"I", "N", "S", "T", "V", "K", "E", "U"⟩
    ⟨some 429, "rl"⟩ ⟨some 429, "rl"⟩ genError genError rfl rfl

/-- C2 counterexample: an add-on delete whose remote delete call
reports NotFound (HTTP 404) returns that error to the caller and
leaves the identity in place, rather than succeeding and clearing it. -/
theorem C2_counterexample :
    (resourcePagerDutyAddonDelete ⟨"ADDON1", "A", "S"⟩ (some ⟨some 404, "Not Found"⟩)).err
      = some ⟨some 404, "Not Found"⟩
    ∧ (resourcePagerDutyAddonDelete ⟨"ADDON1", "A", "S"⟩ (some ⟨some 404, "Not Found"⟩)).state.id
      = "ADDON1" := by
  exact ⟨rfl, rfl⟩

/-- C2 amended: both Delete operations clear the identity and return
success exactly when the remote delete call returns no error; any
error from the delete call, NotFound included, is returned verbatim
with the local state (identity included) unchanged. -/
theorem C2_amended (da : AddonData) (di : IntegrationData) (e : RemoteError) :
    resourcePagerDutyAddonDelete da none = ⟨{ da with id := "" }, none, 1⟩
    ∧ resourcePagerDutyAddonDelete da (some e) = ⟨da, some e, 1⟩
    ∧ resourcePagerDutyServiceIntegrationDelete di none = ⟨{ di with id := "" }, none, 1⟩
    ∧ resourcePagerDutyServiceIntegrationDelete di (some e) = ⟨di, some e, 1⟩ :=
  ⟨rfl, rfl, rfl, rfl⟩

/-- C3: a plain Read (add-on and service integration) whose remote Get
fails with NotFound (HTTP 404) clears the local identity and returns no
error, stopping after that single attempt. -/
theorem C3_read_notfound_clears_id (da : AddonData) (di : IntegrationData)
    (e : RemoteError) (h : e.httpStatus = some 404)
    (restA : List (Except RemoteError Addon))
    (restI : List (Except RemoteError Integration)) :
    resourcePagerDutyAddonRead da (.error e :: restA) = ⟨{ da with id := "" }, none, 1⟩
    ∧ resourcePagerDutyServiceIntegrationRead di (.error e :: restI)
      = ⟨{ di with id := "" }, none, 1⟩ := by
  constructor
  · simp [resourcePagerDutyAddonRead, fetchPagerDutyAddon, retryLoop, fetchAddonStep,
      handleNotFoundError, h, HasId.setId]
  · simp [resourcePagerDutyServiceIntegrationRead, fetchPagerDutyServiceIntegration,
      retryLoop, fetchServiceIntegrationStep, handleNotFoundError, h, HasId.setId]

/-- C3 witness: a concrete 404 error on both Reads. -/
theorem C3_read_notfound_clears_id_witness :
    resourcePagerDutyAddonRead ⟨"I", "A", "S"⟩ [.error ⟨some 404, "Not Found"⟩]
      = ⟨{ id := "", name := "A", src := "S" }, none, 1⟩
    ∧ resourcePagerDutyServiceIntegrationRead ⟨"I", "N", "S", "T", "V", "K", "E", "U"⟩
        [.error ⟨some 404, "Not Found"⟩]
      = ⟨{ id := "", name := "N", service := "S", type := "T", vendor := "V",
           integrationKey := "K", integrationEmail := "E", htmlUrl := "U" }, none, 1⟩ :=
  C3_read_notfound_clears_id ⟨"I", "A", "S"⟩ ⟨"I", "N", "S", "T", "V", "K", "E", "U"⟩
    ⟨some 404, "Not Found"⟩ rfl [] []

/-- C10: neither Update (add-on or service integration) ever writes
local state: the state, identity included, is returned unchanged
whether the remote update call succeeds or fails. -/
theorem C10_update_preserves_state (da : AddonData) (ra : Except RemoteError Addon)
    (di : IntegrationData) (ri : Except RemoteError Integration) :
    (resourcePagerDutyAddonUpdate da ra).state = da
    ∧ (resourcePagerDutyServiceIntegrationUpdate di ri).state = di := by
  constructor
  · cases ra <;> rfl
  · unfold resourcePagerDutyServiceIntegrationUpdate
    cases buildServiceIntegrationStruct di <;> cases ri <;> rfl

/-- C5: when the listing call succeeds, the schedule search resolves to
the first listed schedule whose name equals the search name exactly
(String equality: case-sensitive, never substring), writing its id and
name, returning no error, and issuing exactly one call. -/
theorem C5_exact_match (d : ScheduleData) (schedules : List Schedule) (sch : Schedule)
    (h : schedules.find? (fun s => s.name == d.name) = some sch)
    (rest : List (Except RemoteError (List Schedule))) :
    dataSourcePagerDutyScheduleRead d (.ok schedules :: rest)
      = ⟨{ d with id := sch.id, name := sch.name }, none, 1⟩ := by
  simp [dataSourcePagerDutyScheduleRead, retryLoop, scheduleStep, h]

/-- C5 witness: the spec scenario — searching "OnCallRotationA" in a
listing holding "OnCallRotationAB" and "OnCallRotationA" resolves to
the identity of "OnCallRotationA" only. -/
theorem C5_exact_match_witness :
    dataSourcePagerDutyScheduleRead ⟨"", "OnCallRotationA"⟩
      [.ok [⟨"P2", "OnCallRotationAB"⟩, ⟨"P1", "OnCallRotationA"⟩]]
      = ⟨{ id := "P1", name := "OnCallRotationA" }, none, 1⟩ :=
  C5_exact_match ⟨"", "OnCallRotationA"⟩
    [⟨"P2", "OnCallRotationAB"⟩, ⟨"P1", "OnCallRotationA"⟩]
    ⟨"P1", "OnCallRotationA"⟩ (by decide) []

/-- C6: when the listing call succeeds but no listed schedule's name
equals the search name exactly (the empty listing included), the search
fails non-retryably with an error naming the searched value: the loop
stops after that single attempt however many attempts remain. -/
theorem C6_no_match_nonretryable (d : ScheduleData) (schedules : List Schedule)
    (h : schedules.find? (fun s => s.name == d.name) = none)
    (rest : List (Except RemoteError (List Schedule))) :
    dataSourcePagerDutyScheduleRead d (.ok schedules :: rest)
      = ⟨d, some ⟨none, "Unable to locate any schedule with the name: " ++ d.name⟩, 1⟩ := by
  simp [dataSourcePagerDutyScheduleRead, retryLoop, scheduleStep, h]

/-- C6 witness: an empty listing, with further attempts available that
are never used. -/
theorem C6_no_match_nonretryable_witness :
    dataSourcePagerDutyScheduleRead ⟨"", "OnCallRotationA"⟩ [.ok [], .ok []]
      = ⟨⟨"", "OnCallRotationA"⟩,
         some ⟨none, "Unable to locate any schedule with the name: " ++ "OnCallRotationA"⟩,
         1⟩ :=
  C6_no_match_nonretryable ⟨"", "OnCallRotationA"⟩ [] (by decide) [.ok []]

/-- When every attempt of a retried body yields a retryable error with
the state unchanged (as the hard-fail callback genError guarantees),
the retry loop exhausts the window and returns the last failure. -/
theorem retryLoop_all_retryable {σ ρ : Type} (step : σ → ρ → StepResult σ)
    (toErr : RemoteError → ρ)
    (hstep : ∀ d e, step d (toErr e) = .retryable 2 e d)
    (d : σ) (es : List RemoteError) (e : RemoteError) :
    retryLoop step d ((es ++ [e]).map toErr) = ⟨d, some e, es.length + 1⟩ := by
  induction es generalizing d with
  | nil => simp [retryLoop, hstep]
  | cons a as ih =>
    have h1 : List.map toErr ((a :: as) ++ [e]) = toErr a :: List.map toErr (as ++ [e]) := rfl
    have hne : (List.map toErr (as ++ [e])).isEmpty = false := by
      simp [List.isEmpty_iff]
    rw [h1]
    simp only [retryLoop, hstep, hne, Bool.false_eq_true, if_false, ih d]
    simp

/-- C4: a Create (add-on and service integration) whose remote create
call succeeds, followed by a Fetch that fails on every attempt of the
window (any error kinds, the hard-fail callback returning every one),
returns the last fetch error to the caller instead of succeeding. -/
theorem C4_create_surfaces_fetch_error (da : AddonData) (a : Addon)
    (esA : List RemoteError) (eA : RemoteError)
    (di : IntegrationData) (si : Integration)
    (hb : buildServiceIntegrationStruct di = .ok si)
    (co : Option Integration) (esI : List RemoteError) (eI : RemoteError) :
    (resourcePagerDutyAddonCreate da (.ok a) ((esA ++ [eA]).map Except.error)).err = some eA
    ∧ (resourcePagerDutyServiceIntegrationCreate di [.ok co]
        ((esI ++ [eI]).map Except.error)).err = some eI := by
  constructor
  · have h := retryLoop_all_retryable (fetchAddonStep genError) Except.error
      (fun d e => rfl) { da with id := a.id } esA eA
    simp only [resourcePagerDutyAddonCreate, fetchPagerDutyAddon, h]
  · have hc : retryLoop serviceIntegrationCreateStep di [Except.ok co]
        = ⟨co.elim di (fun s => { di with id := s.id }), none, 1⟩ := by
      cases co <;> rfl
    have h := retryLoop_all_retryable (fetchServiceIntegrationStep genError) Except.error
      (fun d e => rfl) (co.elim di (fun s => { di with id := s.id })) esI eI
    simp only [resourcePagerDutyServiceIntegrationCreate, hb, hc,
      fetchPagerDutyServiceIntegration, h]

/-- C4 witness: successful creates followed by all-failing fetches. -/
theorem C4_create_surfaces_fetch_error_witness :
    (resourcePagerDutyAddonCreate ⟨"", "A", "S"⟩ (.ok ⟨"ID1", "A", "S", "full_page_addon"⟩)
        (List.map Except.error [⟨some 500, "boom"⟩, ⟨some 404, "gone"⟩])).err
      = some ⟨some 404, "gone"⟩
    ∧ (resourcePagerDutyServiceIntegrationCreate ⟨"", "N", "SVC", "", "", "", "", ""⟩
        [.ok none] (List.map Except.error [⟨some 500, "err"⟩])).err
      = some ⟨some 500, "err"⟩ :=
  C4_create_surfaces_fetch_error ⟨"", "A", "S"⟩ ⟨"ID1", "A", "S", "full_page_addon"⟩
    [⟨some 500, "boom"⟩] ⟨some 404, "gone"⟩ ⟨"", "N", "SVC", "", "", "", "", ""⟩
    ⟨"", "N", "service_integration", some "SVC", none, "", "", ""⟩ rfl
    none [] ⟨some 500, "err"⟩

/-- C7: with type generic_email_inbound_integration and an unset (empty)
integration_email, building the integration struct fails with the
integration_email validation error, so both Create and Update fail with
it while issuing zero network calls. -/
theorem C7_email_validation (d : IntegrationData)
    (ht : d.type = "generic_email_inbound_integration") (he : d.integrationEmail = "")
    (createTrace : List (Except RemoteError (Option Integration)))
    (fetchTrace : List (Except RemoteError Integration))
    (updateResp : Except RemoteError Integration) :
    buildServiceIntegrationStruct d = .error ⟨none, errEmailIntegrationMustHaveEmail⟩
    ∧ resourcePagerDutyServiceIntegrationCreate d createTrace fetchTrace
      = ⟨d, some ⟨none, errEmailIntegrationMustHaveEmail⟩, 0⟩
    ∧ resourcePagerDutyServiceIntegrationUpdate d updateResp
      = ⟨d, some ⟨none, errEmailIntegrationMustHaveEmail⟩, 0⟩ := by
  have hb : buildServiceIntegrationStruct d
      = .error ⟨none, errEmailIntegrationMustHaveEmail⟩ := by
    simp only [buildServiceIntegrationStruct, ht, he]
    split_ifs <;> simp_all
  refine ⟨hb, ?_, ?_⟩
  · simp [resourcePagerDutyServiceIntegrationCreate, hb]
  · simp [resourcePagerDutyServiceIntegrationUpdate, hb]

/-- C7 witness: an email integration with no integration_email. -/
theorem C7_email_validation_witness :
    buildServiceIntegrationStruct
        ⟨"", "N", "SVC", "generic_email_inbound_integration", "", "", "", ""⟩
      = .error ⟨none, errEmailIntegrationMustHaveEmail⟩
    ∧ resourcePagerDutyServiceIntegrationCreate
        ⟨"", "N", "SVC", "generic_email_inbound_integration", "", "", "", ""⟩ [] []
      = ⟨⟨"", "N", "SVC", "generic_email_inbound_integration", "", "", "", ""⟩,
         some ⟨none, errEmailIntegrationMustHaveEmail⟩, 0⟩
    ∧ resourcePagerDutyServiceIntegrationUpdate
        ⟨"", "N", "SVC", "generic_email_inbound_integration", "", "", "", ""⟩
        (.ok ⟨"", "", "", none, none, "", "", ""⟩)
      = ⟨⟨"", "N", "SVC", "generic_email_inbound_integration", "", "", "", ""⟩,
         some ⟨none, errEmailIntegrationMustHaveEmail⟩, 0⟩ :=
  C7_email_validation ⟨"", "N", "SVC", "generic_email_inbound_integration", "", "", "", ""⟩
    rfl rfl [] [] (.ok ⟨"", "", "", none, none, "", "", ""⟩)

/-- C8: an import whose raw id does not split on the dot delimiter into
exactly two components fails with the format validation error and
issues zero network calls. -/
theorem C8_import_arity (d : IntegrationData) (getResp : Except RemoteError Integration)
    (h : (stringSplitDot d.id).length ≠ 2) :
    resourcePagerDutyServiceIntegrationImport d getResp
      = ⟨d, some ⟨none, serviceIntegrationImportErr⟩, 0⟩ := by
  unfold resourcePagerDutyServiceIntegrationImport
  rcases hl : stringSplitDot d.id with _ | ⟨a, _ | ⟨b, _ | ⟨c, t⟩⟩⟩ <;> simp_all

/-- C8 witness: a raw id with two delimiters (three components). -/
theorem C8_import_arity_witness :
    resourcePagerDutyServiceIntegrationImport
        ⟨"a.b.c", "", "", "", "", "", "", ""⟩ (.ok ⟨"", "", "", none, none, "", "", ""⟩)
      = ⟨⟨"a.b.c", "", "", "", "", "", "", ""⟩,
         some ⟨none, serviceIntegrationImportErr⟩, 0⟩ :=
  C8_import_arity ⟨"a.b.c", "", "", "", "", "", "", ""⟩
    (.ok ⟨"", "", "", none, none, "", "", ""⟩) (by decide)

/-- C9 counterexample: a successful Read whose fetched integration has
an empty name overwrites the non-empty local name with the empty
string: the name field, though it came back empty, is not left
untouched. -/
theorem C9_counterexample :
    (resourcePagerDutyServiceIntegrationRead
        ⟨"ID1", "OldName", "SVC", "events_api_v2_inbound_integration", "V1", "K1", "E1", "U1"⟩
        [.ok ⟨"ID1", "", "events_api_v2_inbound_integration", none, none, "", "", ""⟩]).state.name
      = ""
    ∧ ("" : String) ≠ "OldName" := by
  exact ⟨rfl, by decide⟩

/-- C9 amended: a successful Read writes name and type from the fetched
integration unconditionally — even when they come back empty — while
service and vendor are written only when present and integration_key,
integration_email and html_url only when non-empty, the absent or empty
ones among these five being left untouched in local state. -/
theorem C9_amended (d : IntegrationData) (si : Integration)
    (rest : List (Except RemoteError Integration)) :
    resourcePagerDutyServiceIntegrationRead d (.ok si :: rest)
      = ⟨{ d with
            name := si.name,
            type := si.type,
            service := si.service.getD d.service,
            vendor := si.vendor.getD d.vendor,
            integrationKey :=
              if si.integrationKey ≠ "" then si.integrationKey else d.integrationKey,
            integrationEmail :=
              if si.integrationEmail ≠ "" then si.integrationEmail else d.integrationEmail,
            htmlUrl := if si.htmlUrl ≠ "" then si.htmlUrl else d.htmlUrl },
         none, 1⟩ := by
  unfold resourcePagerDutyServiceIntegrationRead fetchPagerDutyServiceIntegration
  simp only [retryLoop, fetchServiceIntegrationStep]
  rcases si with ⟨i, n, t, sv, vd, k, e, u⟩
  rcases sv with _ | s <;> rcases vd with _ | v <;> split_ifs <;> simp_all
